import Mathlib

/-!
Shallow embedding of the orchestration core of the multi-account cloud
inventory collector (`src/collector/enhanced_main.py` and
`src/azure_collect.py`), together with proofs of the specified properties:
store-key derivation and upsert idempotence of the DynamoDB store writer,
partial-failure aggregation of the two-level fan-out, the bounded retry in
role assumption, malformed-resource-id defaulting, float-to-Decimal
conversion, and the empty-input frame conditions of both store writers.
-/

namespace Inventory

/-- A Python/JSON-style value as it appears in a collected resource record.
A `float` is carried by its string form (`str(f)` in Python), which is all
`convert_floats` ever inspects; `decimal s` is `Decimal(s)`, DynamoDB's
exact-decimal representation. -/
inductive Value where
  | str : String → Value
  | int : Int → Value
  | float : String → Value
  | decimal : String → Value
  | bool : Bool → Value
  | null : Value
  | list : List Value → Value
  | dict : List (String × Value) → Value

mutual

/-- Function `convert_floats` from `save_to_dynamodb` (enhanced_main.py lines
567-575): a float becomes `Decimal(str(obj))`, dicts and lists are
converted recursively, everything else is returned unchanged. -/
def convert_floats : Value → Value
  | .float s => .decimal s
  | .dict ps => .dict (convertPairs ps)
  | .list vs => .list (convertVals vs)
  | v => v

/-- Recursive conversion of the elements of a list value. -/
def convertVals : List Value → List Value
  | [] => []
  | v :: vs => convert_floats v :: convertVals vs

/-- Recursive conversion of the entries of a dict value (keys kept). -/
def convertPairs : List (String × Value) → List (String × Value)
  | [] => []
  | (k, v) :: ps => (k, convert_floats v) :: convertPairs ps

end

mutual

/-- Holds (`true`) iff no `float` node occurs anywhere in the value. -/
def noFloat : Value → Bool
  | .float _ => false
  | .dict ps => noFloatPairs ps
  | .list vs => noFloatVals vs
  | _ => true

def noFloatVals : List Value → Bool
  | [] => true
  | v :: vs => noFloat v && noFloatVals vs

def noFloatPairs : List (String × Value) → Bool
  | [] => true
  | (_, v) :: ps => noFloat v && noFloatPairs ps

end

mutual

/-- The structural skeleton of a value: `float` and `decimal` leaves are
identified (both mapped to `decimal`), every other node is kept as is.
Skeleton preservation expresses that the conversion changes nothing but
float leaves. -/
def skeleton : Value → Value
  | .float s => .decimal s
  | .decimal s => .decimal s
  | .dict ps => .dict (skeletonPairs ps)
  | .list vs => .list (skeletonVals vs)
  | v => v

def skeletonVals : List Value → List Value
  | [] => []
  | v :: vs => skeleton v :: skeletonVals vs

def skeletonPairs : List (String × Value) → List (String × Value)
  | [] => []
  | (k, v) :: ps => (k, skeleton v) :: skeletonPairs ps

end

/-! ## The DynamoDB store writer (`AWSInventoryCollector.save_to_dynamodb`) -/

/-- A `NormalizedResource` record as consumed by `save_to_dynamodb`.
`region` and `account_name` are optional because the code reads them with
`.get` and a default (`resource.get('region', 'global')`,
`resource.get('account_name', 'unknown')`); the other fields are read by
required key (`resource['resource_type']` etc.). -/
structure NormalizedResource where
  resource_type : String
  resource_id : String
  account_id : String
  account_name : Option String
  region : Option String
  timestamp : String
  attributes : Value
  estimated_monthly_cost : Option Value

/-- The partition key written by `save_to_dynamodb` (line 581):
`f"{resource_type}#{account_id}#{region|'global'}#{resource_id}"`. -/
def pkOf (r : NormalizedResource) : String :=
  r.resource_type ++ "#" ++ r.account_id ++ "#" ++ r.region.getD "global" ++ "#" ++ r.resource_id

/-- The sort key written by `save_to_dynamodb` (line 582): the record's
timestamp. -/
def skOf (r : NormalizedResource) : String := r.timestamp

/-- The composite primary key (partition key, sort key) under which the item
for a resource is stored. -/
def storeKey (r : NormalizedResource) : String × String := (pkOf r, skOf r)

/-- The record rendered as a dict value, as spread into the item by
`**convert_floats(resource)`; optional fields are present in the dict only
when present in the record. -/
def resourceValue (r : NormalizedResource) : Value :=
  .dict
    ([("resource_type", .str r.resource_type),
      ("resource_id", .str r.resource_id),
      ("account_id", .str r.account_id)]
      ++ (match r.account_name with
          | some n => [("account_name", Value.str n)]
          | none => [])
      ++ (match r.region with
          | some reg => [("region", Value.str reg)]
          | none => [])
      ++ [("timestamp", .str r.timestamp), ("attributes", r.attributes)]
      ++ (match r.estimated_monthly_cost with
          | some c => [("estimated_monthly_cost", c)]
          | none => []))

/-- The DynamoDB item built for one resource (lines 584-590). -/
structure Item where
  pk : String
  sk : String
  resource_type : String
  department : String
  body : Value

/-- Item construction: pk/sk pattern, the `department` convenience field, and
the float-converted record body. -/
def itemOf (r : NormalizedResource) : Item :=
  { pk := pkOf r
    sk := skOf r
    resource_type := r.resource_type
    department := r.account_name.getD "unknown"
    body := convert_floats (resourceValue r) }

/-- The DynamoDB table state: a map from composite primary key to item. -/
abbrev DynStore : Type := String × String → Option Item

/-- Operation `batch.put_item`: an unconditional upsert that overwrites whatever item
was stored at the item's own (pk, sk) key. -/
def putItem (st : DynStore) (i : Item) : DynStore :=
  fun k => if k = (i.pk, i.sk) then some i else st k

/-- Writing a list of items in order with `put_item`. -/
def writeItems (st : DynStore) (items : List Item) : DynStore :=
  items.foldl putItem st

/-- Observable store operations of `save_to_dynamodb`: opening the batch
writer and the individual puts. -/
inductive DynEffect where
  | openBatch
  | put (i : Item)

/-- Method `save_to_dynamodb` (lines 562-594): return immediately on an empty list,
otherwise open one batch writer and put one item per resource. The result is
the new table state and the trace of store operations. -/
def save_to_dynamodb (st : DynStore) (resources : List NormalizedResource) :
    DynStore × List DynEffect :=
  if resources.isEmpty then (st, [])
  else
    (writeItems st (resources.map itemOf),
     .openBatch :: resources.map (fun r => .put (itemOf r)))

/-! ## The Azure Table store writer (`AzureInventoryCollector.save_to_table`) -/

/-- A resource dict as consumed by `save_to_table`: every field is read with
`.get`, so every field is optional. -/
structure AzResource where
  resource_type : Option String
  resource_id : Option String
  account_id : Option String
  account_name : Option String
  region : Option String
  timestamp : Option String
  estimated_monthly_cost : Option Value
  attributes : Option Value

/-- The entity upserted into Azure Table Storage (lines 705-714).
`attributes` is JSON-serialized in the code; the serialization itself is an
injective rendering and is abstracted to the value. -/
structure TableEntity where
  partitionKey : String
  rowKey : String
  resource_type : Option String
  account_name : Option String
  region : Option String
  timestamp : Option String
  estimated_monthly_cost : Value
  attributes : Value

/-- Entity construction for one resource. `resource.get('resource_id')`
followed by `.replace('/', '_')` raises `AttributeError` when the id is
absent, modelled as the error case. -/
def entityOf (r : AzResource) : Except String TableEntity :=
  match r.resource_id with
  | none => .error "AttributeError"
  | some rid =>
      .ok
        { partitionKey := r.account_id.getD "unknown"
          rowKey := rid.replace "/" "_"
          resource_type := r.resource_type
          account_name := r.account_name
          region := r.region
          timestamp := r.timestamp
          estimated_monthly_cost := r.estimated_monthly_cost.getD (.int 0)
          attributes := r.attributes.getD (.dict []) }

/-- Azure Table state: a map from (PartitionKey, RowKey) to entity. -/
abbrev TableStore : Type := String × String → Option TableEntity

/-- Operation `table.upsert_entity`: unconditional overwrite at the entity key. -/
def upsertEntity (st : TableStore) (e : TableEntity) : TableStore :=
  fun k => if k = (e.partitionKey, e.rowKey) then some e else st k

/-- Observable operations of `save_to_table`: creating the table client and
the individual upserts. -/
inductive TableEffect where
  | createClient
  | upsert (e : TableEntity)

/-- The upsert loop of `save_to_table`: entities are upserted one at a time,
and an entity-construction error aborts the loop after the earlier upserts
have already happened (the raised exception is the `Option String`). -/
def saveTableLoop (st : TableStore) (acc : List TableEffect) :
    List AzResource → TableStore × List TableEffect × Option String
  | [] => (st, acc, none)
  | r :: rs =>
      match entityOf r with
      | .error e => (st, acc, some e)
      | .ok ent => saveTableLoop (upsertEntity st ent) (acc ++ [.upsert ent]) rs

/-- Method `save_to_table` (lines 696-717): return immediately when the resource
list is empty or the table url is unset/empty (falsy), otherwise create the
table client and upsert every entity. -/
def save_to_table (st : TableStore) (table_url : Option String)
    (resources : List AzResource) : TableStore × List TableEffect × Option String :=
  if resources.isEmpty || (table_url.getD "").isEmpty then (st, [], none)
  else
    let res := saveTableLoop st [] resources
    (res.1, .createClient :: res.2.1, res.2.2)

/-! ## Failure records and the two-level fan-out -/

/-- An entry of `self.failed_collections` (keys `department`, `account_id`,
`error`). -/
structure CollectionFailure where
  department : String
  account_id : String
  error : String

/-- The outcome of one submitted region×type task, as observed by
`future.result()`: either the task's resource list or the exception it
raised. -/
abbrev TaskResult : Type := Except String (List NormalizedResource)

/-- The result-gathering loop of `collect_account_inventory`
(lines 542-548): in completion order, a successful task's resources extend
the aggregate, and a raised error is logged — `failed_collections` is not
modified on this path. -/
def gatherTaskResults (failures : List CollectionFailure) :
    List TaskResult → List NormalizedResource →
    List NormalizedResource × List CollectionFailure
  | [], acc => (acc, failures)
  | .ok rs :: rest, acc => gatherTaskResults failures rest (acc ++ rs)
  | .error _ :: rest, acc => gatherTaskResults failures rest acc

/-- The concatenation of the outputs of the successful tasks, in order. -/
def okValues : List TaskResult → List NormalizedResource
  | [] => []
  | .ok rs :: rest => rs ++ okValues rest
  | .error _ :: rest => okValues rest

/-- Per-account configuration (one value of the `accounts` dict). -/
structure AccountInfo where
  account_id : String
  role_name : Option String

/-- The account fan-out loop of `collect_inventory` (lines 605-623): one
task per account, processed in completion order; a successful account's
resources extend the aggregate, a raised account task appends one failure
entry naming the account. -/
def accountFanOut (accounts : List (String × AccountInfo))
    (run : String → AccountInfo → Except String (List NormalizedResource)) :
    List NormalizedResource × List CollectionFailure :=
  accounts.foldl
    (fun st a =>
      match run a.1 a.2 with
      | .ok rs => (st.1 ++ rs, st.2)
      | .error e =>
          (st.1, st.2 ++ [{ department := a.1, account_id := a.2.account_id, error := e }]))
    ([], [])

/-- Method `collect_inventory` (lines 596-634): with no accounts configured it logs
an error and returns an empty list; otherwise it drains the account fan-out.
The `Except` result records whether the call raised: no branch does. -/
def collect_inventory (accounts : List (String × AccountInfo))
    (run : String → AccountInfo → Except String (List NormalizedResource)) :
    Except String (List NormalizedResource × List CollectionFailure) :=
  if accounts.isEmpty then .ok ([], [])
  else .ok (accountFanOut accounts run)

/-! ## Role assumption (`AWSInventoryCollector.assume_role`) -/

/-- A boto3 session built from the credentials returned by a successful
`sts.assume_role` call. -/
structure Session where
  accessKeyId : String
  secretAccessKey : String
  sessionToken : String

/-- The role ARN assembled by `assume_role` (line 79). -/
def role_arn (account_id role_name : String) : String :=
  "arn:aws:iam::" ++ account_id ++ ":role/" ++ role_name

/-- Constant `max_retries` (line 81). -/
def max_retries : Nat := 3

/-- The retry loop of `assume_role` (lines 82-103), with `sts attempt` the
outcome of the STS call on the given attempt. Returns the final outcome and
the list of sleep durations, in seconds, performed between attempts: after
failed attempt `i` (0-based) it sleeps `(i+1)*2` seconds unless that was the
last allowed attempt, in which case the error is re-raised. -/
def attemptLoop (sts : Nat → Except String Session) (attempt : Nat) :
    Nat → Except String Session × List Nat
  | 0 => (.error "", [])
  | remaining + 1 =>
      match sts attempt with
      | .ok s => (.ok s, [])
      | .error e =>
          if remaining = 0 then (.error e, [])
          else
            let rest := attemptLoop sts (attempt + 1) remaining
            (rest.1, (attempt + 1) * 2 :: rest.2)

/-- Method `assume_role`: the account id, role name and external id parameterize the
STS exchange (`sts arn externalId attempt`); the loop makes at most
`max_retries` attempts. -/
def assume_role (sts : String → String → Nat → Except String Session)
    (account_id role_name external_id : String) :
    Except String Session × List Nat :=
  attemptLoop (sts (role_arn account_id role_name) external_id) 0 max_retries

/-- Method `collect_account_inventory` (lines 504-560): assume the role, collect the
global S3 resources, then drain the region×type tasks; any exception of the
account-level body (role assumption being the raising step in this model)
appends a single failure entry for the account and yields no resources. -/
def collect_account_inventory (name : String) (info : AccountInfo)
    (failures : List CollectionFailure)
    (sts : String → String → Nat → Except String Session) (external_id : String)
    (s3Resources : Session → List NormalizedResource)
    (tasks : Session → List TaskResult) :
    List NormalizedResource × List CollectionFailure :=
  match (assume_role sts info.account_id (info.role_name.getD "InventoryRole") external_id).1 with
  | .error e => ([], failures ++ [{ department := name, account_id := info.account_id, error := e }])
  | .ok s => gatherTaskResults failures (tasks s) (s3Resources s)

/-! ## SQL database collection (`AzureInventoryCollector.collect_sql_databases`) -/

/-- One database item returned by `databases.list_by_subscription()`. -/
structure SqlDb where
  id : Option String
  location : Option String
  tags : List (String × String)

/-- The record emitted for one SQL database (lines 683-693). -/
structure SqlRecord where
  resource_type : String
  resource_id : Option String
  account_id : String
  region : Option String
  timestamp : String
  resource_group : String
  tags : List (String × String)

/-- The resource-group extraction of `collect_sql_databases` (lines 677-681):
`parse_resource_id(db.id or '')` inside a `try`, then
`parsed.get('resource_group', 'unknown')`; both a raising parse and a parse
result without the `resource_group` key default to `'unknown'`. The vendor
`parse_resource_id` helper is an external collaborator, abstracted as
`parse`. -/
def resourceGroupOf (parse : String → Except String (List (String × String)))
    (dbid : Option String) : String :=
  match parse (dbid.getD "") with
  | .error _ => "unknown"
  | .ok parsed => ((parsed.lookup "resource_group").getD "unknown")

/-- Method `collect_sql_databases` (lines 666-694): one record per listed database,
never raising on a malformed id. -/
def collect_sql_databases (parse : String → Except String (List (String × String)))
    (subscription_id now : String) (dbs : List SqlDb) : List SqlRecord :=
  dbs.map fun db =>
    { resource_type := "sql_database"
      resource_id := db.id
      account_id := subscription_id
      region := db.location
      timestamp := now
      resource_group := resourceGroupOf parse db.id
      tags := db.tags }

/-! ## Resource Graph paged collection (`AzureResourceGraphCollector.collect`) -/

/-- A raw Resource Graph row as projected by the query
(`id, name, type, location, tags, subscriptionId`); `type` and `name` are
indexed directly by `_normalize`, the rest are read with `.get`. -/
structure RawItem where
  id : Option String
  name : String
  type : String
  location : Option String
  tags : List (String × String)
  subscriptionId : Option String

/-- The normalized record built by `_normalize` (azure_collect.py
lines 95-108). -/
structure GraphRecord where
  composite_key : String
  timestamp : String
  account_id : Option String
  account_name : Option String
  region : Option String
  resource_type : Option String
  resource_id : Option String
  resource_name : Option String
  tags : List (String × String)

/-- Python's string interpolation of a possibly-`None` value. -/
def pyStr (o : Option String) : String := o.getD "None"

/-- Method `_normalize`: resolve the subscription name from the configured map
(falling back to the id itself) and build the flat record with the
`sub_id#type#name` composite key. -/
def normalizeItem (subscription_map : List (String × String)) (now : String)
    (item : RawItem) : GraphRecord :=
  let sub_id := item.subscriptionId
  let name := (subscription_map.find? (fun p => some p.2 == sub_id)).map (·.1)
  { composite_key := pyStr sub_id ++ "#" ++ item.type ++ "#" ++ item.name
    timestamp := now
    account_id := sub_id
    account_name := name <|> sub_id
    region := item.location
    resource_type := some item.type
    resource_id := item.id
    resource_name := some item.name
    tags := item.tags }

/-- The paging loop of `collect` (azure_collect.py lines 82-92): the server's
successive responses, each a page of rows plus an optional skip token; pages
are consumed and concatenated while a skip token links to the next
response. -/
def pageLoop : List (List RawItem × Option String) → List RawItem
  | [] => []
  | (data, none) :: _ => data
  | (data, some _) :: rest => data ++ pageLoop rest

/-- Method `collect`: drain the page chain, then normalize every accumulated row
(no deduplication step). -/
def graphCollect (subscription_map : List (String × String)) (now : String)
    (responses : List (List RawItem × Option String)) : List GraphRecord :=
  (pageLoop responses).map (normalizeItem subscription_map now)

/-- The last item in the list whose (pk, sk) key is `k`, if any: the value
that a sequence of overwriting puts leaves at `k`. -/
def lastPut : List Item → String × String → Option Item
  | [], _ => none
  | i :: is, k =>
      match lastPut is k with
      | some j => some j
      | none => if k = (i.pk, i.sk) then some i else none

/-- The resources a finished account task contributes to the aggregate. -/
def okD : Except String (List NormalizedResource) → List NormalizedResource
  | .ok rs => rs
  | .error _ => []

/-- The failure entry a raising account task appends, if any. -/
def failEntryOf (a : String × AccountInfo) :
    Except String (List NormalizedResource) → Option CollectionFailure
  | .ok _ => none
  | .error e => some { department := a.1, account_id := a.2.account_id, error := e }

/-- A database id that does not match the expected Azure resource-path
shape, as far as the collector can observe it: parsing it raises, or the
parse result has no `resource_group` component (a `None` id is parsed as
`''`). -/
def MalformedId (parse : String → Except String (List (String × String)))
    (dbid : Option String) : Prop :=
  (∃ e, parse (dbid.getD "") = Except.error e) ∨
  (∃ ps, parse (dbid.getD "") = Except.ok ps ∧ ps.lookup "resource_group" = none)

/-! ## Lemmas about `convert_floats` -/

mutual

theorem convert_floats_noFloat : ∀ v, noFloat (convert_floats v) = true
  | .str _ => rfl
  | .int _ => rfl
  | .float _ => rfl
  | .decimal _ => rfl
  | .bool _ => rfl
  | .null => rfl
  | .list vs => by simp [convert_floats, noFloat, convertVals_noFloat vs]
  | .dict ps => by simp [convert_floats, noFloat, convertPairs_noFloat ps]

theorem convertVals_noFloat : ∀ vs, noFloatVals (convertVals vs) = true
  | [] => rfl
  | v :: vs => by
      simp [convertVals, noFloatVals, convert_floats_noFloat v, convertVals_noFloat vs]

theorem convertPairs_noFloat : ∀ ps, noFloatPairs (convertPairs ps) = true
  | [] => rfl
  | (k, v) :: ps => by
      simp [convertPairs, noFloatPairs, convert_floats_noFloat v, convertPairs_noFloat ps]

end

mutual

theorem convert_floats_id_of_noFloat : ∀ v, noFloat v = true → convert_floats v = v
  | .str _, _ => rfl
  | .int _, _ => rfl
  | .decimal _, _ => rfl
  | .bool _, _ => rfl
  | .null, _ => rfl
  | .list vs, h => by
      simp only [noFloat] at h
      simp [convert_floats, convertVals_id_of_noFloat vs h]
  | .dict ps, h => by
      simp only [noFloat] at h
      simp [convert_floats, convertPairs_id_of_noFloat ps h]

theorem convertVals_id_of_noFloat : ∀ vs, noFloatVals vs = true → convertVals vs = vs
  | [], _ => rfl
  | v :: vs, h => by
      simp only [noFloatVals, Bool.and_eq_true] at h
      simp [convertVals, convert_floats_id_of_noFloat v h.1, convertVals_id_of_noFloat vs h.2]

theorem convertPairs_id_of_noFloat : ∀ ps, noFloatPairs ps = true → convertPairs ps = ps
  | [], _ => rfl
  | (k, v) :: ps, h => by
      simp only [noFloatPairs, Bool.and_eq_true] at h
      simp [convertPairs, convert_floats_id_of_noFloat v h.1, convertPairs_id_of_noFloat ps h.2]

end

mutual

theorem skeleton_convert_floats : ∀ v, skeleton (convert_floats v) = skeleton v
  | .str _ => rfl
  | .int _ => rfl
  | .float _ => rfl
  | .decimal _ => rfl
  | .bool _ => rfl
  | .null => rfl
  | .list vs => by simp [convert_floats, skeleton, skeletonVals_convert vs]
  | .dict ps => by simp [convert_floats, skeleton, skeletonPairs_convert ps]

theorem skeletonVals_convert : ∀ vs, skeletonVals (convertVals vs) = skeletonVals vs
  | [] => rfl
  | v :: vs => by
      simp [convertVals, skeletonVals, skeleton_convert_floats v, skeletonVals_convert vs]

theorem skeletonPairs_convert : ∀ ps, skeletonPairs (convertPairs ps) = skeletonPairs ps
  | [] => rfl
  | (k, v) :: ps => by
      simp [convertPairs, skeletonPairs, skeleton_convert_floats v, skeletonPairs_convert ps]

end

/-- C9: before a record is written, `convert_floats` turns every float at any
nesting depth into the exact-decimal representation built from the float's
string form, leaves every non-float value unchanged, and preserves the
record's structure: the result contains no float, the structural skeleton is
preserved, a value already free of floats is returned unchanged, and a float
leaf becomes precisely `Decimal(str(f))`. -/
theorem convert_floats_exact_decimal (v : Value) :
    noFloat (convert_floats v) = true
    ∧ skeleton (convert_floats v) = skeleton v
    ∧ (noFloat v = true → convert_floats v = v)
    ∧ (∀ s, convert_floats (.float s) = .decimal s) :=
  ⟨convert_floats_noFloat v, skeleton_convert_floats v,
   convert_floats_id_of_noFloat v, fun _ => rfl⟩

/-- Witness for C9 at concrete values: a float-free leaf is unchanged and a
dict with a float field is float-free after conversion. -/
theorem convert_floats_exact_decimal_witness :
    convert_floats (Value.str "vm1") = Value.str "vm1"
    ∧ noFloat (convert_floats (Value.dict [("estimated_monthly_cost", Value.float "36.0")])) = true :=
  ⟨(convert_floats_exact_decimal (Value.str "vm1")).2.2.1 rfl,
   (convert_floats_exact_decimal (Value.dict [("estimated_monthly_cost", Value.float "36.0")])).1⟩

/-! ## Store-key determinism and upsert idempotence -/

/-- C1 counterexample: two records that agree on
`(resource_type, account_id, region, resource_id)` and differ only in their
timestamp are stored under different keys, because the sort key of the item
is the record's timestamp. -/
theorem storeKey_depends_on_timestamp :
    storeKey
      { resource_type := "ec2_instance", resource_id := "i-0abc", account_id := "111122223333"
        account_name := none, region := some "us-east-1", timestamp := "2024-01-01T00:00:00+00:00"
        attributes := .dict [], estimated_monthly_cost := none } ≠
    storeKey
      { resource_type := "ec2_instance", resource_id := "i-0abc", account_id := "111122223333"
        account_name := none, region := some "us-east-1", timestamp := "2024-01-02T00:00:00+00:00"
        attributes := .dict [], estimated_monthly_cost := none } := by
  decide

/-- C1 (amended): of the composite key written by `save_to_dynamodb`, the
partition key is fully determined by
`(resource_type, account_id, region|'global', resource_id)` and is
independent of all other fields; the full (pk, sk) key of two such records
coincides exactly when their timestamps also agree, because the sort key is
the timestamp. -/
theorem storeKey_partition_deterministic (r₁ r₂ : NormalizedResource)
    (ht : r₁.resource_type = r₂.resource_type)
    (ha : r₁.account_id = r₂.account_id)
    (hr : r₁.region.getD "global" = r₂.region.getD "global")
    (hi : r₁.resource_id = r₂.resource_id) :
    pkOf r₁ = pkOf r₂ ∧ (storeKey r₁ = storeKey r₂ ↔ r₁.timestamp = r₂.timestamp) := by
  have hpk : pkOf r₁ = pkOf r₂ := by simp [pkOf, ht, ha, hr, hi]
  exact ⟨hpk, by simp [storeKey, skOf, hpk, Prod.ext_iff]⟩

/-- Witness for the amended C1 at two concrete records that differ in
attributes, cost and account name but share the key quadruple and the
timestamp. -/
theorem storeKey_partition_deterministic_witness :
    pkOf
      { resource_type := "s3_bucket", resource_id := "logs", account_id := "4242"
        account_name := some "prod", region := none, timestamp := "2024-05-05T00:00:00+00:00"
        attributes := .dict [("versioning", .str "Enabled")]
        estimated_monthly_cost := some (.float "1.25") } =
    pkOf
      { resource_type := "s3_bucket", resource_id := "logs", account_id := "4242"
        account_name := none, region := some "global", timestamp := "2024-05-05T00:00:00+00:00"
        attributes := .dict [], estimated_monthly_cost := none } :=
  (storeKey_partition_deterministic _ _ rfl rfl rfl rfl).1

theorem writeItems_apply : ∀ (items : List Item) (st : DynStore) (k : String × String),
    writeItems st items k =
      match lastPut items k with
      | some j => some j
      | none => st k
  | [], _, _ => rfl
  | i :: is, st, k => by
      show writeItems (putItem st i) is k = _
      rw [writeItems_apply is (putItem st i) k]
      cases h : lastPut is k with
      | some j => simp [lastPut, h]
      | none =>
          simp only [lastPut, h, putItem]
          split <;> simp

/-- C2: running `save_to_dynamodb` twice with the identical resource list
leaves the store in the same final state as running it once — every record
is an unconditional upsert at its key, so the second run overwrites rather
than appends. -/
theorem save_to_dynamodb_idempotent (st : DynStore) (resources : List NormalizedResource) :
    (save_to_dynamodb (save_to_dynamodb st resources).1 resources).1 =
      (save_to_dynamodb st resources).1 := by
  by_cases h : resources.isEmpty
  · simp [save_to_dynamodb, h]
  · simp only [save_to_dynamodb, h, if_neg, Bool.false_eq_true, ite_false]
    funext k
    rw [writeItems_apply, writeItems_apply]
    cases hl : lastPut (resources.map itemOf) k with
    | some j => simp [hl]
    | none => simp [hl, writeItems_apply, hl]

/-- C10: invoking either store writer with an empty resource list performs no
store operation and leaves the store unchanged; `save_to_table` also returns
before creating a table client when no table endpoint is configured (unset
or empty url). -/
theorem empty_input_no_writes (st : DynStore) (ts : TableStore) (url : Option String)
    (rs : List AzResource) :
    save_to_dynamodb st [] = (st, [])
    ∧ save_to_table ts url [] = (ts, [], none)
    ∧ save_to_table ts none rs = (ts, [], none)
    ∧ save_to_table ts (some "") rs = (ts, [], none) := by
  refine ⟨rfl, ?_, ?_, ?_⟩ <;> simp [save_to_table, String.isEmpty]

/-! ## Partial-failure aggregation inside one account -/

theorem gatherTaskResults_eq (fs : List CollectionFailure) :
    ∀ (results : List TaskResult) (acc : List NormalizedResource),
      gatherTaskResults fs results acc = (acc ++ okValues results, fs)
  | [], acc => by simp [gatherTaskResults, okValues]
  | .ok rs :: rest, acc => by
      simp [gatherTaskResults, okValues, gatherTaskResults_eq fs rest (acc ++ rs)]
  | .error e :: rest, acc => by
      simp [gatherTaskResults, okValues, gatherTaskResults_eq fs rest acc]

theorem okValues_append (l₁ l₂ : List TaskResult) :
    okValues (l₁ ++ l₂) = okValues l₁ ++ okValues l₂ := by
  induction l₁ with
  | nil => simp [okValues]
  | cons x rest ih => cases x <;> simp [okValues, ih]

/-- C3 counterexample: one of two region×type tasks raises, yet no
`CollectionFailure` is recorded — the gathering loop only logs the error, so
the run's failure list stays empty rather than gaining exactly one entry. -/
theorem task_failure_not_recorded_cex :
    gatherTaskResults []
      [Except.ok
        [{ resource_type := "ec2_instance", resource_id := "i-0abc"
           account_id := "111122223333", account_name := some "prod"
           region := some "us-east-1", timestamp := "2024-01-01T00:00:00+00:00"
           attributes := .dict [], estimated_monthly_cost := none }],
       Except.error "ThrottlingException"] [] =
    ([{ resource_type := "ec2_instance", resource_id := "i-0abc"
        account_id := "111122223333", account_name := some "prod"
        region := some "us-east-1", timestamp := "2024-01-01T00:00:00+00:00"
        attributes := .dict [], estimated_monthly_cost := none }], []) := by
  simp [gatherTaskResults]

/-- C3 (amended): when exactly one of the N submitted region×type tasks
raises, the aggregate equals the union of the other N−1 tasks' outputs, but
the raised error is only logged: the run's failure list is returned
unchanged, with no `CollectionFailure` added at this layer. -/
theorem task_failure_isolation_amended (fs : List CollectionFailure)
    (pre post : List TaskResult) (e : String)
    (_hpre : ∀ x ∈ pre, ∃ rs, x = Except.ok rs)
    (_hpost : ∀ x ∈ post, ∃ rs, x = Except.ok rs) :
    gatherTaskResults fs (pre ++ Except.error e :: post) [] =
      (okValues pre ++ okValues post, fs) := by
  rw [gatherTaskResults_eq, okValues_append]
  simp [okValues]

/-- Witness for the amended C3: a failing task surrounded by one successful
empty task on each side yields the empty union and an unchanged (empty)
failure list. -/
theorem task_failure_isolation_amended_witness :
    gatherTaskResults [] ([Except.ok []] ++ Except.error "AccessDenied" :: [Except.ok []]) [] =
      (okValues [Except.ok []] ++ okValues [Except.ok []], []) :=
  task_failure_isolation_amended [] [Except.ok []] [Except.ok []] "AccessDenied"
    (fun x hx => ⟨[], by simpa using hx⟩) (fun x hx => ⟨[], by simpa using hx⟩)

/-! ## The account fan-out -/

theorem accountFanOut_go (run : String → AccountInfo → Except String (List NormalizedResource)) :
    ∀ (accounts : List (String × AccountInfo)) (init : List NormalizedResource × List CollectionFailure),
      accounts.foldl
        (fun st a =>
          match run a.1 a.2 with
          | .ok rs => (st.1 ++ rs, st.2)
          | .error e =>
              (st.1, st.2 ++ [{ department := a.1, account_id := a.2.account_id, error := e }]))
        init =
      (init.1 ++ accounts.flatMap (fun a => okD (run a.1 a.2)),
       init.2 ++ accounts.filterMap (fun a => failEntryOf a (run a.1 a.2)))
  | [], init => by simp
  | a :: rest, init => by
      cases h : run a.1 a.2 with
      | ok rs => simp [accountFanOut_go run rest, h, okD, failEntryOf]
      | error e => simp [accountFanOut_go run rest, h, okD, failEntryOf]

theorem accountFanOut_count (run : String → AccountInfo → Except String (List NormalizedResource)) :
    ∀ accounts : List (String × AccountInfo),
      ((accounts.filter fun a => (run a.1 a.2).isOk).length +
          (accounts.filterMap (fun a => failEntryOf a (run a.1 a.2))).length) =
        accounts.length
  | [] => rfl
  | a :: rest => by
      cases h : run a.1 a.2 with
      | ok rs =>
          have ih := accountFanOut_count run rest
          simp only [List.filter_cons, List.filterMap_cons, h, failEntryOf, Except.isOk,
            Except.toBool, List.length_cons] at ih ⊢
          simp only [if_true, List.length_cons]
          omega
      | error e =>
          have ih := accountFanOut_count run rest
          simp only [List.filter_cons, List.filterMap_cons, h, failEntryOf, Except.isOk,
            Except.toBool, List.length_cons] at ih ⊢
          simp only [Bool.false_eq_true, if_false, List.length_cons]
          omega

/-- C4: the account fan-out drains every account task: the aggregate is
exactly the concatenation of every successful account's resources, the
failure list has exactly one entry (naming the account) per raising account
task, and successful accounts plus failure entries add up to the number of
input accounts — no account is silently dropped. -/
theorem account_fanout_total (accounts : List (String × AccountInfo))
    (run : String → AccountInfo → Except String (List NormalizedResource)) :
    (accountFanOut accounts run).1 = accounts.flatMap (fun a => okD (run a.1 a.2))
    ∧ (accountFanOut accounts run).2 = accounts.filterMap (fun a => failEntryOf a (run a.1 a.2))
    ∧ (accounts.filter fun a => (run a.1 a.2).isOk).length +
        (accountFanOut accounts run).2.length = accounts.length := by
  have h := accountFanOut_go run accounts ([], [])
  simp only [accountFanOut, h, List.nil_append]
  exact ⟨trivial, trivial, accountFanOut_count run accounts⟩

/-! ## No accounts configured -/

/-- C6 counterexample: with an empty account set, `collect_inventory` logs
the error but completes normally with an empty result — it does not raise or
return an error result. -/
theorem no_accounts_returns_normally_cex :
    collect_inventory [] (fun _ _ => Except.error "unreachable") = Except.ok ([], []) := rfl

/-- C6 (amended): with no accounts configured the run does not abort:
`collect_inventory` logs \"No accounts configured\" and returns an empty
resource list as a normal (non-error) result. -/
theorem no_accounts_empty_result
    (run : String → AccountInfo → Except String (List NormalizedResource)) :
    collect_inventory [] run = Except.ok ([], []) := rfl

/-! ## Bounded retry of role assumption -/

/-- C7: `assume_role` exchanges the account id, role name and external id for
a session over at most `max_retries = 3` attempts with linearly increasing
sleeps of 2 s then 4 s between consecutive failed attempts; it returns on
the first success without further attempts or sleeps, and after the third
failed attempt it propagates that attempt's error, which
`collect_account_inventory` records as a single unreachable-account failure
with no resources. -/
theorem assume_role_bounded_retry (sts : String → String → Nat → Except String Session)
    (info : AccountInfo) (external_id name : String) (fs : List CollectionFailure)
    (s3Resources : Session → List NormalizedResource) (tasks : Session → List TaskResult) :
    (∀ s, sts (role_arn info.account_id (info.role_name.getD "InventoryRole")) external_id 0 =
        .ok s →
      assume_role sts info.account_id (info.role_name.getD "InventoryRole") external_id =
        (.ok s, []))
    ∧ (∀ e₀ s,
        sts (role_arn info.account_id (info.role_name.getD "InventoryRole")) external_id 0 =
          .error e₀ →
        sts (role_arn info.account_id (info.role_name.getD "InventoryRole")) external_id 1 =
          .ok s →
        assume_role sts info.account_id (info.role_name.getD "InventoryRole") external_id =
          (.ok s, [2]))
    ∧ (∀ e₀ e₁ s,
        sts (role_arn info.account_id (info.role_name.getD "InventoryRole")) external_id 0 =
          .error e₀ →
        sts (role_arn info.account_id (info.role_name.getD "InventoryRole")) external_id 1 =
          .error e₁ →
        sts (role_arn info.account_id (info.role_name.getD "InventoryRole")) external_id 2 =
          .ok s →
        assume_role sts info.account_id (info.role_name.getD "InventoryRole") external_id =
          (.ok s, [2, 4]))
    ∧ (∀ e₀ e₁ e₂,
        sts (role_arn info.account_id (info.role_name.getD "InventoryRole")) external_id 0 =
          .error e₀ →
        sts (role_arn info.account_id (info.role_name.getD "InventoryRole")) external_id 1 =
          .error e₁ →
        sts (role_arn info.account_id (info.role_name.getD "InventoryRole")) external_id 2 =
          .error e₂ →
        assume_role sts info.account_id (info.role_name.getD "InventoryRole") external_id =
          (.error e₂, [2, 4])
        ∧ collect_account_inventory name info fs sts external_id s3Resources tasks =
            ([], fs ++ [{ department := name, account_id := info.account_id, error := e₂ }])) := by
  refine ⟨?_, ?_, ?_, ?_⟩
  · intro s h0
    simp [assume_role, max_retries, attemptLoop, h0]
  · intro e₀ s h0 h1
    simp [assume_role, max_retries, attemptLoop, h0, h1]
  · intro e₀ e₁ s h0 h1 h2
    simp [assume_role, max_retries, attemptLoop, h0, h1, h2]
  · intro e₀ e₁ e₂ h0 h1 h2
    have hfail : assume_role sts info.account_id (info.role_name.getD "InventoryRole") external_id =
        (.error e₂, [2, 4]) := by
      simp [assume_role, max_retries, attemptLoop, h0, h1, h2]
    exact ⟨hfail, by simp [collect_account_inventory, hfail]⟩

/-- Witness for C7: a first-attempt success returns at once with no sleeps,
and three consecutive failures sleep 2 s then 4 s, propagate the last error
and yield exactly one unreachable-account failure entry. -/
theorem assume_role_bounded_retry_witness :
    assume_role (fun _ _ _ => Except.ok ⟨"AKIA", "SECRET", "TOKEN"⟩)
        "111122223333" "InventoryRole" "inventory-collector" =
      (Except.ok ⟨"AKIA", "SECRET", "TOKEN"⟩, [])
    ∧ collect_account_inventory "prod" ⟨"111122223333", none⟩ []
        (fun _ _ n =>
          Except.error (if n = 0 then "denied-0" else if n = 1 then "denied-1" else "denied-2"))
        "inventory-collector" (fun _ => []) (fun _ => []) =
      ([], [{ department := "prod", account_id := "111122223333", error := "denied-2" }]) :=
  ⟨(assume_role_bounded_retry (fun _ _ _ => Except.ok ⟨"AKIA", "SECRET", "TOKEN"⟩)
      ⟨"111122223333", none⟩ "inventory-collector" "prod" [] (fun _ => []) (fun _ => [])).1
      ⟨"AKIA", "SECRET", "TOKEN"⟩ rfl,
   ((assume_role_bounded_retry
      (fun _ _ n =>
        Except.error (if n = 0 then "denied-0" else if n = 1 then "denied-1" else "denied-2"))
      ⟨"111122223333", none⟩ "inventory-collector" "prod" [] (fun _ => []) (fun _ => [])).2.2.2
      "denied-0" "denied-1" "denied-2" rfl rfl rfl).2⟩

/-! ## Malformed SQL database ids -/

/-- C8: `collect_sql_databases` never raises on a malformed id: a record is
emitted for every listed database (length preserved), and for every database
whose id is malformed the emitted record carries the `'unknown'` placeholder
as its `attributes.resource_group`. -/
theorem malformed_sql_id_defaults_unknown
    (parse : String → Except String (List (String × String)))
    (subscription_id now : String) (dbs : List SqlDb) :
    (collect_sql_databases parse subscription_id now dbs).length = dbs.length
    ∧ ∀ db ∈ dbs, MalformedId parse db.id →
        resourceGroupOf parse db.id = "unknown" ∧
        ({ resource_type := "sql_database", resource_id := db.id,
           account_id := subscription_id, region := db.location, timestamp := now,
           resource_group := "unknown", tags := db.tags } : SqlRecord) ∈
          collect_sql_databases parse subscription_id now dbs := by
  constructor
  · simp [collect_sql_databases]
  · intro db hdb hmal
    have hrg : resourceGroupOf parse db.id = "unknown" := by
      rcases hmal with ⟨e, he⟩ | ⟨ps, hok, hnone⟩
      · simp [resourceGroupOf, he]
      · simp [resourceGroupOf, hok, hnone]
    refine ⟨hrg, ?_⟩
    simp only [collect_sql_databases, List.mem_map]
    exact ⟨db, hdb, by rw [hrg]⟩

/-- Witness for C8: a single database with a `None` id under an
always-raising parser still yields its record, with resource group
`'unknown'`. -/
theorem malformed_sql_id_defaults_unknown_witness :
    ({ resource_type := "sql_database", resource_id := none, account_id := "sub-1",
       region := some "eastus", timestamp := "2024-01-01T00:00:00+00:00",
       resource_group := "unknown", tags := [] } : SqlRecord) ∈
      collect_sql_databases (fun _ => Except.error "InvalidResourceId") "sub-1"
        "2024-01-01T00:00:00+00:00" [⟨none, some "eastus", []⟩] :=
  ((malformed_sql_id_defaults_unknown (fun _ => Except.error "InvalidResourceId") "sub-1"
      "2024-01-01T00:00:00+00:00" [⟨none, some "eastus", []⟩]).2
    ⟨none, some "eastus", []⟩ (by simp) (Or.inl ⟨"InvalidResourceId", rfl⟩)).2

/-! ## Resource Graph paging -/

/-- C5 counterexample: an item returned on both pages of a two-page skip-token
chain occurs twice in the collected list, with the same composite key — the
collector concatenates pages and performs no deduplication. -/
theorem graph_collect_no_dedup_cex :
    (graphCollect [] "2024-01-01T00:00:00+00:00"
        [([⟨some "/sub/s/vm/n", "n", "t", some "eastus", [], some "s"⟩], some "tok"),
         ([⟨some "/sub/s/vm/n", "n", "t", some "eastus", [], some "s"⟩], none)]).length = 2
    ∧ (graphCollect [] "2024-01-01T00:00:00+00:00"
        [([⟨some "/sub/s/vm/n", "n", "t", some "eastus", [], some "s"⟩], some "tok"),
         ([⟨some "/sub/s/vm/n", "n", "t", some "eastus", [], some "s"⟩], none)]).map
        (fun r => r.composite_key) = ["s#t#n", "s#t#n"] := by
  constructor <;> rfl

/-- C5 (amended): a paged Resource-Graph query linked by a skip token
returns the normalized concatenation of every page's items; items appearing
on more than one page are not deduplicated and occur once per containing
page. -/
theorem graph_collect_union_of_pages (m : List (String × String)) (now : String)
    (p₁ p₂ : List RawItem) (tok : String) :
    graphCollect m now [(p₁, some tok), (p₂, none)] = (p₁ ++ p₂).map (normalizeItem m now)
    ∧ (graphCollect m now [(p₁, some tok), (p₂, none)]).length = p₁.length + p₂.length := by
  constructor <;> simp [graphCollect, pageLoop]

end Inventory
